import Mathlib

set_option maxRecDepth 100000

/-!
Verification of the `rws_data_ingester` scripts
(`src/rijnhaven_swimming_advice.py` and `src/rotterdam_swimming_advice.py`).

The two Python scripts are shallowly embedded:

* Python's dynamically-typed JSON-like values become the inductive `PyVal`.
* Statements that can raise become `Except String` computations; the value
  carried by `.error` stands for the `str()` of the raised exception.
* The outside world (HTTP, JSON decoding, BeautifulSoup, the chat-completion
  API, the wall clock) is passed in as explicit oracle functions, so the
  pipeline functions are ordinary total Lean functions of their oracles.
* The f-string templates of both scripts are transcribed verbatim as string
  constants (`rijnP*`, `rottP*`, `rijnH*`, `rottH*`); f-string interpolation
  becomes string concatenation around these constants.
-/

mutual

/-- A Python value as used by the scripts: `None`, booleans, integers,
strings, lists and (string-keyed) dicts.  The list and dict payloads are the
mutual inductives `PyItems` and `PyFields` (rather than nested `List`s) so
that recursion over values stays structural and evaluates by `rfl`. -/
inductive PyVal where
  | none : PyVal
  | bool : Bool → PyVal
  | int : Int → PyVal
  | str : String → PyVal
  | listC : PyItems → PyVal
  | dictC : PyFields → PyVal

/-- The elements of a Python list value. -/
inductive PyItems where
  | nil : PyItems
  | cons : PyVal → PyItems → PyItems

/-- The insertion-ordered `key: value` fields of a Python dict value. -/
inductive PyFields where
  | nil : PyFields
  | cons : String → PyVal → PyFields → PyFields

end

/-- Build `PyItems` from a Lean list. -/
def PyItems.ofList : List PyVal → PyItems
  | [] => .nil
  | v :: vs => .cons v (PyItems.ofList vs)

/-- The Lean list of elements of `PyItems`. -/
def PyItems.toList : PyItems → List PyVal
  | .nil => []
  | .cons v vs => v :: PyItems.toList vs

/-- Build `PyFields` from a Lean association list. -/
def PyFields.ofList : List (String × PyVal) → PyFields
  | [] => .nil
  | (k, v) :: kvs => .cons k v (PyFields.ofList kvs)

/-- The Lean association list of fields of `PyFields`. -/
def PyFields.toList : PyFields → List (String × PyVal)
  | .nil => []
  | .cons k v kvs => (k, v) :: PyFields.toList kvs

/-- A Python list value, from a Lean list of values. -/
def PyVal.list (vs : List PyVal) : PyVal := .listC (PyItems.ofList vs)

/-- A Python dict value, from a Lean association list. -/
def PyVal.dict (kvs : List (String × PyVal)) : PyVal := .dictC (PyFields.ofList kvs)

mutual

/-- Python `repr` of a value (string quoting approximated without escape
sequences, which never occur in the inputs the claims are about). -/
def pyRepr : PyVal → String
  | .none => "None"
  | .bool b => if b then "True" else "False"
  | .int n => toString n
  | .str s => "\x27" ++ s ++ "\x27"
  | .listC vs => "[" ++ pyReprItems vs ++ "]"
  | .dictC kvs => "\x7b" ++ pyReprFields kvs ++ "\x7d"

/-- Comma-joined `repr`s of list elements. -/
def pyReprItems : PyItems → String
  | .nil => ""
  | .cons v .nil => pyRepr v
  | .cons v vs => pyRepr v ++ ", " ++ pyReprItems vs

/-- Comma-joined `'key': repr` renderings of dict fields. -/
def pyReprFields : PyFields → String
  | .nil => ""
  | .cons k v .nil => "\x27" ++ k ++ "\x27: " ++ pyRepr v
  | .cons k v kvs => "\x27" ++ k ++ "\x27: " ++ pyRepr v ++ ", " ++ pyReprFields kvs

end

/-- Python `str()`: identity on strings, `repr` otherwise. -/
def pyStr : PyVal → String
  | .str s => s
  | v => pyRepr v

/-- First binding of `key` in an association list (our dicts never hold
duplicate keys, so this is Python dict lookup). -/
def pyLookup : List (String × PyVal) → String → Option PyVal
  | [], _ => Option.none
  | (k, v) :: rest, key => if k = key then some v else pyLookup rest key

/-- Python subscript `v[key]`: `KeyError` on a missing key, `TypeError` on a
non-dict. -/
def pySubscript (v : PyVal) (key : String) : Except String PyVal :=
  match v with
  | .dictC kvs =>
    match pyLookup kvs.toList key with
    | some x => .ok x
    | Option.none => .error ("KeyError: \x27" ++ key ++ "\x27")
  | _ => .error "TypeError: object is not subscriptable"

/-- Python `v.get(key, default)`: only dicts have `.get` (`AttributeError`
otherwise). -/
def pyGet (v : PyVal) (key : String) (default : PyVal) : Except String PyVal :=
  match v with
  | .dictC kvs => .ok ((pyLookup kvs.toList key).getD default)
  | _ => .error "AttributeError: object has no attribute get"

/-- Iterating a Python value as a list (`TypeError` when it is not one; the
scripts only ever iterate JSON arrays). -/
def pyAsList (v : PyVal) : Except String (List PyVal) :=
  match v with
  | .listC vs => .ok vs.toList
  | _ => .error "TypeError: object is not iterable"

/-- Substring test on strings, via `List.IsInfix` on the character data. -/
def pyInStr (needle hay : String) : Bool := decide (needle.data <:+: hay.data)

/-- Python's `needle in container` for the container shapes that occur here:
substring test on strings, membership on lists (a string equals a list
element only if that element is the same string), key membership on dicts,
`TypeError` otherwise. -/
def pyInOp (needle : String) : PyVal → Except String Bool
  | .str s => .ok (pyInStr needle s)
  | .listC vs =>
    .ok (vs.toList.any (fun v => match v with | .str s => s = needle | _ => false))
  | .dictC kvs => .ok (kvs.toList.any (fun kv => kv.1 = needle))
  | _ => .error "TypeError: argument of type is not iterable"

/-- Python whitespace as stripped by `str.strip()` with no argument. -/
def pyWs (c : Char) : Bool :=
  c = ' ' || c = '\t' || c = '\n' || c = '\r' || c = '\x0b' || c = '\x0c'

/-- Drop characters satisfying `p` from both ends of a character list. -/
def stripOn (p : Char → Bool) (l : List Char) : List Char :=
  ((l.dropWhile p).reverse.dropWhile p).reverse

/-- Python `str.strip()`. -/
def pyStrip (s : String) : String := ⟨stripOn pyWs s.data⟩

/-- Python `str.strip(chars)`: strip any of the given characters from both
ends. -/
def pyStripChars (cs : List Char) (s : String) : String :=
  ⟨stripOn (fun c => cs.contains c) s.data⟩

/-- Python `str.rstrip(chars)`: strip any of the given characters from the
right end. -/
def pyRstripChars (cs : List Char) (s : String) : String :=
  ⟨(s.data.reverse.dropWhile (fun c => cs.contains c)).reverse⟩

/-- Python `s.replace("\n", "<br>")` on the character data. -/
def replaceNlData : List Char → List Char
  | [] => []
  | c :: t =>
    if c = '\n' then '<' :: 'b' :: 'r' :: '>' :: replaceNlData t
    else c :: replaceNlData t

/-- Python `s.replace("\n", "<br>")`. -/
def pyReplaceNl (s : String) : String := ⟨replaceNlData s.data⟩

/-- Python `s.replace(old, "")` on character data, with a fuel argument so
that the recursion is structural; each step consumes at least one character,
so fuel `s.length` (as used by `pyRemoveOcc`) is always enough. -/
def removeOccAux (old : List Char) : Nat → List Char → List Char
  | _, [] => []
  | 0, s => s
  | fuel + 1, c :: t =>
    if !old.isEmpty && old.isPrefixOf (c :: t) then
      removeOccAux old fuel (List.drop (old.length - 1) t)
    else
      c :: removeOccAux old fuel t

/-- Python `s.replace(old, "")` (with empty `old` it is the identity, as
Python's `replace("", "")` is). -/
def pyRemoveOcc (old : String) (s : String) : String :=
  ⟨removeOccAux old.data s.data.length s.data⟩

/-- Python `sep.join(xs)`. -/
def pyJoin (sep : String) : List String → String
  | [] => ""
  | [x] => x
  | x :: y :: ys => x ++ sep ++ pyJoin sep (y :: ys)

/-- Insertion into a Python dict: overwrite an existing key in place,
otherwise append at the end (insertion order is kept, as in Python). -/
def pyDictSet (kvs : List (String × PyVal)) (k : String) (v : PyVal) :
    List (String × PyVal) :=
  if kvs.any (fun kv => kv.1 = k) then
    kvs.map (fun kv => if kv.1 = k then (kv.1, v) else kv)
  else
    kvs ++ [(k, v)]

def rijnP0 : String :=
  "\nYou are an assistant that gives advice about swimming in open water at Rijnhaven, Rotterdam.\nYou should consider water temperature, water level, wind speed, and official safety notices.\n\nHere is today\x27s data:\n- Water temperature: "

def rijnP1 : String :=
  " ¬∞C\n- Water level: "

def rijnP2 : String :=
  " cm (relative to NAP)\n- Wind speed: "

def rijnP3 : String :=
  " m/s\n- Official safety messages:\n"

def rijnP4 : String :=
  "\n\nPlease provide your recommendation in plain HTML format without any code block indicators or additional markdown. Include relevant emojis to enhance the message\x27s friendliness and clarity. Make sure important information is emphasized with appropriate HTML tags (e.g., <strong> for bold text). Don\x27t add the header, just the content.\nAlso, mention that this is AI-generated content based on Rijkswaterstaat data, and its accuracy should be double-checked. Include a link to <a href=\"https://waterinfo.rws.nl\" target=\"_blank\">Rijkswaterstaat</a> for more information.\n"

def rijnH0 : String :=
  "\n        <!DOCTYPE html>\n        <html lang=\"en\">\n        <head>\n            <meta charset=\"UTF-8\">\n            <meta name=\"viewport\" content=\"width=device-width, initial-scale=1.0\">\n            <title>Rijnhaven Swimming Advice</title>\n            <style>\n                body \x7b\n                    margin: 0;\n                    padding: 2em;\n                    font-family: \"Segoe UI\", sans-serif;\n                    background: #f7fbfe;\n                    color: #333;\n                \x7d\n                .container \x7b\n                    max-width: 800px;\n                    margin: auto;\n                    background: #fff;\n                    padding: 2em;\n                    border-radius: 12px;\n                    box-shadow: 0 4px 20px rgba(0,0,0,0.05);\n                \x7d\n                h1 \x7b\n                    color: #0077cc;\n                    font-size: 2em;\n                    margin-bottom: 0.5em;\n                \x7d\n                .timestamp \x7b\n                    margin-top: 2em;\n                    font-size: 0.9em;\n                    color: #777;\n                \x7d\n                .contribute-notice \x7b\n                    margin-top: 1.5em;\n                    font-size: 0.9em;\n                    color: #666;\n                \x7d\n            </style>\n        </head>\n        <body>\n            <div class=\"container\">\n                <h1>üèä Rijnhaven Swimming Advice</h1>\n                <div>"

def rijnH1 : String :=
  "</div>\n                <div class=\"contribute-notice\">\n                    Have ideas or want to contribute? Open issues on \n                    <a href=\"https://github.com/arianium/rws_data_ingester\" target=\"_blank\">GitHub</a> \n                    to help improve this service.\n                </div>\n                <div class=\"timestamp\">Last updated: "

def rijnH2 : String :=
  "</div>\n            </div>\n        </body>\n        </html>\n    "

def rottP0 : String :=
  "\n    You are an assistant that provides swimming advice in Rotterdam.\n    The language of the advice should be English except for names.\n\n    Generate an HTML response with two clearly separated sections. \n    Keep vertical spacing between them minimal but clear. \n    Use CSS margin spacing, not multiple <br> tags, to separate sections.\n\n    Do NOT include full HTML boilerplate like <!DOCTYPE html>, <html>, <head>, or <body>. \n    Only return the content inside a <div>.\n\n    Important: Do NOT use triple backticks (\x60\x60\x60html) or any code block formatting in your output. \n    Just return raw HTML.\n    1. Rijnhaven Advice:\n    - Use the following data:\n        - Water temperature: "

def rottP1 : String :=
  " °C\n        - Water level: "

def rottP2 : String :=
  " cm (relative to NAP)\n        - Wind speed: "

def rottP3 : String :=
  " m/s\n        - Official safety messages from Rijkswaterstaat:\n    "

def rottP4 : String :=
  "\n\n    2. Water Safety Notes:\n    - Based on recent data from Zwemwater.nl:\n    "

def rottP5 : String :=
  "\n\n    Format the HTML in a clean and friendly manner. \n    Use <strong> for important facts, emojis to make it friendlier, and only single <br> for spacing. \n    Avoid <br><br> and excessive empty space.\n\n    At the end, add a short note that this advice is AI-generated using public data sources \n    and include links to:\n    - https://waterinfo.rws.nl\n    - https://www.zwemwater.nl\n    "

def rottH0 : String :=
  "<!DOCTYPE html>\n<html lang=\"en\">\n<head>\n    <meta charset=\"UTF-8\">\n    <meta name=\"viewport\" content=\"width=device-width, initial-scale=1.0\">\n    <title>Rotterdam Swimming Advice</title>\n    <style>\n        body \x7b\n            margin: 0;\n            padding: 2em;\n            font-family: \"Segoe UI\", sans-serif;\n            background: #f7fbfe;\n            color: #333;\n        \x7d\n        .container \x7b\n            max-width: 800px;\n            margin: auto;\n            background: #fff;\n            padding: 2em;\n            border-radius: 12px;\n            box-shadow: 0 4px 20px rgba(0,0,0,0.05);\n        \x7d\n    </style>\n</head>\n<body>\n    <div class=\"container\">\n        <h1>🏊 Rotterdam Swimming Advice</h1>\n        <div>"

def rottH1 : String :=
  "</div>\n        <div class=\"contribution\">\n            <p>If you have any suggestions or ideas, feel free to reach out to me on <a href=\"https://github.com/arianium/rws_data_ingester\">GitHub</a>.</p>\n        </div>\n        <div class=\"timestamp\">Last updated: "

def rottH2 : String :=
  "</div>\n    </div>\n</body>\n</html>"

/-- An HTTP response as seen through `httpx`: status code and body text. -/
structure HttpResponse where
  status : Nat
  text : String

/-- `httpx.Response.is_success`, the condition under which
`raise_for_status()` does not raise. -/
def is2xx (r : HttpResponse) : Bool := 200 ≤ r.status && r.status < 300

/-- One message of a chat-completion choice. -/
structure ChatMessage where
  role : String
  content : String

/-- One choice of a chat-completion response. -/
structure ChatChoice where
  message : ChatMessage

/-- A chat-completion response: its list of choices. -/
structure ChatResponse where
  choices : List ChatChoice

/-- The observable outcome of one run of `main`: the file written (path and
contents), if any, and the error logged, if any. -/
structure RunResult where
  written : Option (String × String)
  loggedError : Option String
deriving DecidableEq

def WATER_DATA_URL : String :=
  "https://waterinfo.rws.nl/api/detail/get?locationSlug=Rotterdam(ROTT)&expertParameter=Waterhoogte___20Oppervlaktewater___20t.o.v.___20Normaal___20Amsterdams___20Peil___20in___20cm"

def WATER_MESSAGES_URL : String :=
  "https://waterinfo.rws.nl/api/watermessage/getall?identifiers=86b36486-c6d7-4897-9416-f3d2852a1287&identifiers=a87e691e-aab9-4993-b7db-0b7f3b73dbcd&identifiers=154c8fc5-0e8a-44e0-83c1-6c81f9144742"

def BASE_SAFETY_URL : String :=
  "https://www.zwemwater.nl/wp-content/themes/stuurlui/blocks/map/map-content.php?spotid="

def ZWEMWATER_IDS : List String := ["22003", "23762", "22005", "22001"]

def HEADERS : List (String × String) :=
  [("User-Agent", "Mozilla/5.0"), ("Accept", "application/json"),
   ("Referer", "https://waterinfo.rws.nl/")]

def RWS_HEADERS : List (String × String) :=
  [("Accept", "application/json"), ("Referer", "https://waterinfo.rws.nl/")]

def ZWM_WTR_HEADERS : List (String × String) :=
  [("Accept", "*/*"), ("Referer", "https://www.zwemwater.nl/")]

/-- `next((r for r in related if needle in r["label"]), {})` as used by the
Rijnhaven `create_prompt`: the first related reading whose `label` contains
the needle, `{}` when there is none; subscripting a reading without a
`label` raises. -/
def findRelated (needle : String) : List PyVal → Except String PyVal
  | [] => .ok (.dict [])
  | r :: rest => do
    let lbl ← pySubscript r "label"
    let b ← pyInOp needle lbl
    if b then .ok r else findRelated needle rest

/-- `next((item for item in related if needle in item.get("label", "")), {})`
as used by the Rotterdam `create_prompt`: like `findRelated` but tolerant of
a missing `label`. -/
def findRelatedGet (needle : String) : List PyVal → Except String PyVal
  | [] => .ok (.dict [])
  | r :: rest => do
    let lbl ← pyGet r "label" (.str "")
    let b ← pyInOp needle lbl
    if b then .ok r else findRelatedGet needle rest

/-- The lines `f"- {msg['title']}: {msg['bannerText']}"`, one per safety
message; subscripting a message without those keys raises. -/
def messageLines : List PyVal → Except String (List String)
  | [] => .ok []
  | msg :: rest => do
    let t ← pySubscript msg "title"
    let b ← pySubscript msg "bannerText"
    let others ← messageLines rest
    .ok (("- " ++ pyStr t ++ ": " ++ pyStr b) :: others)

/-- Map an effectful function over a list, propagating the first error
(`asyncio.gather` over a list of tasks, resolved in list order). -/
def exceptMapList {ε α β : Type} (f : α → Except ε β) : List α → Except ε (List β)
  | [] => .ok []
  | a :: rest => do
    let b ← f a
    let others ← exceptMapList f rest
    .ok (b :: others)

/-- `get_llm_response` (identical in both scripts up to the model name and
temperature, which the `api` oracle absorbs): call the chat-completion
endpoint and return the text content of the first choice; an empty `choices`
list makes `choices[0]` raise. -/
def get_llm_response (api : String → Except String ChatResponse)
    (prompt : String) : Except String String := do
  let response ← api prompt
  match response.choices with
  | [] => .error "IndexError: list index out of range"
  | choice :: _ => .ok choice.message.content

namespace Rijnhaven

/-- `get_json`: GET the url, `raise_for_status()`, then decode the body as
JSON (a decode failure propagates). -/
def get_json (jsonParse : String → Except String PyVal)
    (http : String → Except String HttpResponse) (url : String) :
    Except String PyVal := do
  let response ← http url
  if is2xx response then jsonParse response.text
  else .error "HTTPStatusError"

/-- `fetch_data`: the water-data and water-messages JSON documents. -/
def fetch_data (jsonParse : String → Except String PyVal)
    (http : String → Except String HttpResponse) :
    Except String (PyVal × PyVal) := do
  let water_data ← get_json jsonParse http WATER_DATA_URL
  let water_messages ← get_json jsonParse http WATER_MESSAGES_URL
  .ok (water_data, water_messages)

/-- `create_prompt` of the Rijnhaven script.  `water_data["latest"]["data"]`,
`water_data["related"]` and `water_messages["messages"]` are subscripts and
raise when absent; wind and temperature fall back to `{}` and render as
`None`. -/
def create_prompt (water_data water_messages : PyVal) : Except String String := do
  let latest ← pySubscript water_data "latest"
  let water_level ← pySubscript latest "data"
  let relatedVal ← pySubscript water_data "related"
  let related ← pyAsList relatedVal
  let wind ← findRelated "Windsnelheid" related
  let temp ← findRelated "Watertemperatuur" related
  let msgsVal ← pySubscript water_messages "messages"
  let msgs ← pyAsList msgsVal
  let lines ← messageLines msgs
  let messages := pyJoin "\n" lines
  let tempData ← pyGet temp "data" .none
  let windData ← pyGet wind "data" .none
  .ok (pyStrip (rijnP0 ++ pyStr tempData ++ rijnP1 ++ pyStr water_level ++
    rijnP2 ++ pyStr windData ++ rijnP3 ++ messages ++ rijnP4))

/-- The full text of the HTML report page, as a function of the report and
the `datetime.now()` timestamp. -/
def htmlContent (report now : String) : String :=
  pyStrip (rijnH0 ++ pyReplaceNl report ++ rijnH1 ++ now ++ rijnH2)

/-- `export_to_html`: the file written (path, contents). -/
def export_to_html (report file_path now : String) : String × String :=
  (file_path, htmlContent report now)

/-- `main` of the Rijnhaven script: fetch, build the prompt, call the LLM,
export; any raised exception is caught, logged, and ends the run with
nothing written.  `export_to_html` is called with its default
`file_path="index.html"`. -/
def main (jsonParse : String → Except String PyVal)
    (http : String → Except String HttpResponse)
    (api : String → Except String ChatResponse) (now : String) : RunResult :=
  match (do
      let wdm ← fetch_data jsonParse http
      let prompt ← create_prompt wdm.1 wdm.2
      let report ← get_llm_response api prompt
      .ok report : Except String String) with
  | .error e => ⟨Option.none, some ("Something went wrong: " ++ e)⟩
  | .ok report => ⟨some (export_to_html report "index.html" now), Option.none⟩

end Rijnhaven

namespace Rotterdam

/-- `call_endpoint_and_get_content`: GET the url, `raise_for_status()`, then
try to decode the body as JSON; if decoding fails (`json.JSONDecodeError`,
the only exception the function catches) return the raw body text instead.
`jsonParse` is the JSON decoder oracle; its `.error` is a decode failure. -/
def call_endpoint_and_get_content (jsonParse : String → Except String PyVal)
    (http : String → Except String HttpResponse) (url : String)
    (_header : List (String × String)) : Except String PyVal := do
  let response ← http url
  if is2xx response then
    match jsonParse response.text with
    | .ok v => .ok v
    | .error _ => .ok (.str response.text)
  else .error "HTTPStatusError"

/-- `fetch_rws_data`: the water-data and water-messages documents. -/
def fetch_rws_data (jsonParse : String → Except String PyVal)
    (http : String → Except String HttpResponse) :
    Except String (PyVal × PyVal) := do
  let water_data ← call_endpoint_and_get_content jsonParse http WATER_DATA_URL RWS_HEADERS
  let water_messages ← call_endpoint_and_get_content jsonParse http WATER_MESSAGES_URL RWS_HEADERS
  .ok (water_data, water_messages)

/-- One `ul.spot-info li` element as `parse_zwemwater_html_to_dict` reads it:
the text of the whole `li` and the text of its first `span`, when one
exists (both via `get_text(strip=True)`). -/
structure SpotInfoItem where
  liText : String
  spanText : Option String

/-- The queries `parse_zwemwater_html_to_dict` makes against a parsed
BeautifulSoup document: the first `h2` text, the `ul.spot-info li` items,
all `p` texts, the `ul.features button span.border-b` texts, and all `h4`
texts (texts via `get_text(strip=True)`). -/
structure Soup where
  h2 : Option String
  spotInfoItems : List SpotInfoItem
  paragraphs : List String
  featureButtons : List String
  h4s : List String

/-- The `general_info` dict: for each `li` with a `span` label, key
`label.rstrip(":")` and value `li_text.replace(label, "").strip(": ")`,
with later duplicates overwriting (Python dict assignment). -/
def generalInfoAux (acc : List (String × PyVal)) :
    List SpotInfoItem → List (String × PyVal)
  | [] => acc
  | li :: rest =>
    match li.spanText with
    | some lbl =>
      generalInfoAux
        (pyDictSet acc (pyRstripChars [':'] lbl)
          (.str (pyStripChars [':', ' '] (pyRemoveOcc lbl li.liText)))) rest
    | Option.none => generalInfoAux acc rest

/-- `parse_zwemwater_html_to_dict`.  `bs` is the BeautifulSoup oracle: it
stands for `BeautifulSoup(html_content, "lxml")` together with the document
queries, and its `.error` case stands for any exception raised inside the
`try` block (carrying `str(exc)`).  On an exception the result is the
`{"error": ..., "raw": html_content}` dict with the input unmodified;
otherwise it is the five-key result dict.  The function is total: it always
returns a dict and never raises. -/
def parse_zwemwater_html_to_dict (bs : String → Except String Soup)
    (html_content : String) : PyVal :=
  match bs html_content with
  | .error exc => .dict [("error", .str exc), ("raw", .str html_content)]
  | .ok soup =>
    .dict [("place", .str (soup.h2.getD "Unknown")),
           ("general_info", .dict (generalInfoAux [] soup.spotInfoItems)),
           ("description", .str (pyJoin "\n" soup.paragraphs)),
           ("facilities", .list (soup.featureButtons.map PyVal.str)),
           ("chart_titles", .list (soup.h4s.map PyVal.str))]

/-- `parse_zwemwater_html_to_dict` applied to one fetched value, which is
`Union[dict, str]`: on a non-string, `BeautifulSoup` raises `TypeError`
inside the `try` block, so the except branch returns the error dict with
`raw` the original value. -/
def parseFetched (bs : String → Except String Soup) (html_data : PyVal) : PyVal :=
  match html_data with
  | .str s => parse_zwemwater_html_to_dict bs s
  | v => .dict [("error", .str "TypeError: object of type has no len()"), ("raw", v)]

/-- The four community swim-spot urls, one per entry of `ZWEMWATER_IDS`. -/
def zwemwaterUrls : List String :=
  ZWEMWATER_IDS.map (fun spotid => BASE_SAFETY_URL ++ spotid)

/-- `get_zwemwater_safety_data`: fetch each spot page (a `gather` over the
four urls, resolved in list order) and parse each into a record; the result
is `{"safetyMessages": [...]}` with the records in spot-id order. -/
def get_zwemwater_safety_data (jsonParse : String → Except String PyVal)
    (bs : String → Except String Soup)
    (http : String → Except String HttpResponse) : Except String PyVal := do
  let safety_data_list ←
    exceptMapList
      (fun url => call_endpoint_and_get_content jsonParse http url ZWM_WTR_HEADERS)
      zwemwaterUrls
  .ok (.dict [("safetyMessages", .list (safety_data_list.map (parseFetched bs)))])

/-- `create_prompt` of the Rotterdam script: every field is read with `.get`
and a placeholder default (`"N/A"`, `{}`, `[]`), an empty message list
renders as `"- No official messages"`, and the whole zwemwater dict is
interpolated via `str()`. -/
def create_prompt (rws_water_data water_messages zwemwater_safety_data : PyVal) :
    Except String String := do
  let latestVal ← pyGet rws_water_data "latest" (.dict [])
  let level ← pyGet latestVal "data" (.str "N/A")
  let relatedVal ← pyGet rws_water_data "related" (.list [])
  let related ← pyAsList relatedVal
  let wind ← findRelatedGet "Windsnelheid" related
  let temp ← findRelatedGet "Watertemperatuur" related
  let rwsMsgsVal ← pyGet water_messages "messages" (.list [])
  let rws_msgs ← pyAsList rwsMsgsVal
  let rws_lines ← messageLines rws_msgs
  let rws_summary := if rws_lines.isEmpty then "- No official messages"
    else pyJoin "\n" rws_lines
  let tempData ← pyGet temp "data" (.str "N/A")
  let windData ← pyGet wind "data" (.str "N/A")
  .ok (pyStrip (rottP0 ++ pyStr tempData ++ rottP1 ++ pyStr level ++ rottP2 ++
    pyStr windData ++ rottP3 ++ rws_summary ++ rottP4 ++
    pyStr zwemwater_safety_data ++ rottP5))

/-- The full text of the HTML report page, as a function of the report and
the `datetime.now()` timestamp. -/
def htmlContent (report now : String) : String :=
  rottH0 ++ pyReplaceNl report ++ rottH1 ++ now ++ rottH2

/-- `export_to_html`: the file written (path, contents). -/
def export_to_html (report file_path now : String) : String × String :=
  (file_path, htmlContent report now)

/-- `main` of the Rotterdam script: fetch RWS data, fetch the zwemwater spot
pages, build the prompt, call the LLM, export; any raised exception is
caught, logged, and ends the run with nothing written.  `export_to_html` is
called with its default `file_path="index.html"`. -/
def main (jsonParse : String → Except String PyVal)
    (bs : String → Except String Soup)
    (http : String → Except String HttpResponse)
    (api : String → Except String ChatResponse) (now : String) : RunResult :=
  match (do
      let wdm ← fetch_rws_data jsonParse http
      let zwemwater_safety_data ← get_zwemwater_safety_data jsonParse bs http
      let prompt ← create_prompt wdm.1 wdm.2 zwemwater_safety_data
      let report ← get_llm_response api prompt
      .ok report : Except String String) with
  | .error e => ⟨Option.none, some ("Something went wrong: " ++ e)⟩
  | .ok report => ⟨some (export_to_html report "index.html" now), Option.none⟩

end Rotterdam

/-- The keys of a Python dict value, in order (`None` for a non-dict). -/
def pyKeys : PyVal → Option (List String)
  | .dictC kvs => some (kvs.toList.map Prod.fst)
  | _ => Option.none

/-- Witness fixture: a water-data document with a latest reading and an empty
related list. -/
def wdW : PyVal := .dict [("latest", .dict [("data", .str "5")]), ("related", .list [])]

/-- Witness fixture: a messages document with an empty message list. -/
def wmW : PyVal := .dict [("messages", .list [])]

/-- Witness fixture: a JSON decoder recognising the two RWS bodies. -/
def jpW : String → Except String PyVal := fun t =>
  if t = "WD" then .ok wdW
  else if t = "WM" then .ok wmW
  else .error "Expecting value"

/-- Witness fixture: an HTTP oracle answering 200 with a body tag per url. -/
def httpW : String → Except String HttpResponse := fun url =>
  .ok ⟨200, if url = WATER_DATA_URL then "WD"
    else if url = WATER_MESSAGES_URL then "WM" else "HTML"⟩

/-- Witness fixture: a chat API answering one choice with content `REPORT`. -/
def apiW : String → Except String ChatResponse :=
  fun _ => .ok ⟨[⟨⟨"assistant", "REPORT"⟩⟩]⟩

/-- Witness fixture: a BeautifulSoup oracle yielding an empty document. -/
def bsW : String → Except String Rotterdam.Soup :=
  fun _ => .ok ⟨Option.none, [], [], [], []⟩

/-- Boolean substring check on character data (used to settle negative
substring facts by evaluation, one position at a time). -/
def hasSubData (needle : List Char) : List Char → Bool
  | [] => needle.isEmpty
  | c :: t => needle.isPrefixOf (c :: t) || hasSubData needle t

/-- Input fixture: a related wind reading with the given label and value. -/
def relWFix (lblW wnd : String) : PyVal :=
  .dict [("label", .str lblW), ("data", .str wnd)]

/-- Input fixture: a related temperature reading with the given label and
value. -/
def relTFix (lblT tmp : String) : PyVal :=
  .dict [("label", .str lblT), ("data", .str tmp)]

/-- Input fixture: a water-data document with a latest level and related
wind and temperature readings. -/
def waterDataFix (lvl wnd tmp lblW lblT : String) : PyVal :=
  .dict [("latest", .dict [("data", .str lvl)]),
    ("related", .list [relWFix lblW wnd, relTFix lblT tmp])]

/-- Input fixture: a messages document carrying the given titled safety
messages. -/
def waterMessagesFix (msgs : List (String × String)) : PyVal :=
  .dict [("messages", .list (msgs.map (fun pr =>
    .dict [("title", .str pr.1), ("bannerText", .str pr.2)])))]

/-- The formatted line of one safety message. -/
def msgLineFix (pr : String × String) : String := "- " ++ pr.1 ++ ": " ++ pr.2

@[simp]
theorem PyItems.toList_ofList_items (l : List PyVal) : (PyItems.ofList l).toList = l := by
  induction l with
  | nil => rfl
  | cons v vs ih => simp [PyItems.ofList, PyItems.toList, ih]

@[simp]
theorem PyFields.toList_ofList_fields (l : List (String × PyVal)) :
    (PyFields.ofList l).toList = l := by
  induction l with
  | nil => rfl
  | cons kv kvs ih =>
    cases kv
    simp [PyFields.ofList, PyFields.toList, ih]

@[simp]
theorem pySubscript_dict (kvs : List (String × PyVal)) (key : String) :
    pySubscript (PyVal.dict kvs) key =
      (match pyLookup kvs key with
       | some x => .ok x
       | Option.none => .error ("KeyError: \x27" ++ key ++ "\x27")) := by
  simp [PyVal.dict, pySubscript]

@[simp]
theorem pyGet_dict (kvs : List (String × PyVal)) (key : String) (d : PyVal) :
    pyGet (PyVal.dict kvs) key d = .ok ((pyLookup kvs key).getD d) := by
  simp [PyVal.dict, pyGet]

@[simp]
theorem pyAsList_list (vs : List PyVal) : pyAsList (PyVal.list vs) = .ok vs := by
  simp [PyVal.list, pyAsList]

example : pyStr (.dict [("a", .int 1), ("b", .str "x")]) =
    "\x7b\x27a\x27: 1, \x27b\x27: \x27x\x27\x7d" := by decide

example : pyStr (.list [.none, .bool true, .str "u"]) = "[None, True, \x27u\x27]" := by
  decide

example : pyStrip "  ab c \n" = "ab c" := by decide

example : pyReplaceNl "a\nb" = "a<br>b" := by decide

example : pyRemoveOcc "ab" "xabyab" = "xy" := by decide

example : pyRemoveOcc "" "xy" = "xy" := by decide

example : pyJoin "\n" ["a", "b", "c"] = "a\nb\nc" := by decide

example : pyStripChars [':', ' '] " : ab:c : " = "ab:c" := by decide

example : pyRstripChars [':'] "Adres:" = "Adres" := by decide

theorem dropWhile_append_left (p : Char → Bool) (a b : List Char)
    (h : a.dropWhile p ≠ []) : (a ++ b).dropWhile p = a.dropWhile p ++ b := by
  induction a with
  | nil => exact absurd rfl h
  | cons c t ih =>
    by_cases hc : p c = true
    · have h' : List.dropWhile p t ≠ [] := by
        rw [List.dropWhile_cons, if_pos hc] at h
        exact h
      rw [List.cons_append, List.dropWhile_cons, if_pos hc,
        List.dropWhile_cons, if_pos hc]
      exact ih h'
    · rw [List.cons_append, List.dropWhile_cons, if_neg hc,
        List.dropWhile_cons, if_neg hc, List.cons_append]

theorem stripOn_decomp (p : Char → Bool) (pre mid post : List Char)
    (hpre : pre.dropWhile p ≠ []) (hpost : post.reverse.dropWhile p ≠ []) :
    stripOn p (pre ++ mid ++ post) =
      pre.dropWhile p ++ mid ++ (post.reverse.dropWhile p).reverse := by
  unfold stripOn
  rw [List.append_assoc, dropWhile_append_left p pre (mid ++ post) hpre,
    List.reverse_append, List.reverse_append,
    List.append_assoc, dropWhile_append_left p post.reverse _ hpost,
    List.reverse_append, List.reverse_append, List.reverse_reverse,
    List.reverse_reverse, List.append_assoc]

theorem pyStrip_data_decomp (pre mid post : String)
    (hpre : pre.data.dropWhile pyWs ≠ [])
    (hpost : post.data.reverse.dropWhile pyWs ≠ []) :
    (pyStrip (pre ++ mid ++ post)).data =
      pre.data.dropWhile pyWs ++ mid.data ++ (post.data.reverse.dropWhile pyWs).reverse := by
  show stripOn pyWs ((pre ++ mid ++ post).data) = _
  rw [String.data_append, String.data_append]
  exact stripOn_decomp pyWs pre.data mid.data post.data hpre hpost

theorem subData_mid (a x b : String) : x.data <:+: (a ++ x ++ b).data :=
  ⟨a.data, b.data, by simp [String.data_append]⟩

theorem subTrans {l₁ l₂ l₃ : List Char} (h1 : l₁ <:+: l₂) (h2 : l₂ <:+: l₃) :
    l₁ <:+: l₃ := by
  obtain ⟨a, b, rfl⟩ := h1
  obtain ⟨c, d, rfl⟩ := h2
  exact ⟨c ++ a, b ++ d, by simp [List.append_assoc]⟩

theorem pyJoin_sub (sep : String) (lines : List String) (l : String)
    (h : l ∈ lines) : l.data <:+: (pyJoin sep lines).data := by
  induction lines with
  | nil => simp at h
  | cons x rest ih =>
    cases rest with
    | nil =>
      rcases List.mem_cons.mp h with h | h
      · subst h
        exact ⟨[], [], by simp [pyJoin]⟩
      · simp at h
    | cons y ys =>
      rcases List.mem_cons.mp h with h | h
      · subst h
        exact ⟨[], (sep ++ pyJoin sep (y :: ys)).data, by
          simp [pyJoin, String.data_append, List.append_assoc]⟩
      · refine subTrans (ih h) ⟨(x ++ sep).data, [], by
          simp [pyJoin, String.data_append, List.append_assoc]⟩

@[simp]
theorem pyStr_str (s : String) : pyStr (.str s) = s := rfl

theorem messageLines_shape (msgs : List (String × String)) :
    messageLines (msgs.map (fun pr =>
        PyVal.dict [("title", .str pr.1), ("bannerText", .str pr.2)])) =
      .ok (msgs.map (fun pr => "- " ++ pr.1 ++ ": " ++ pr.2)) := by
  induction msgs with
  | nil => rfl
  | cons m rest ih =>
    cases m
    simp [messageLines, ih, pyLookup, Bind.bind, Except.bind]

theorem replaceNlData_of_no_nl (l : List Char) (h : '\n' ∉ l) :
    replaceNlData l = l := by
  induction l with
  | nil => rfl
  | cons c t ih =>
    rw [replaceNlData, if_neg (by simp at h; exact fun hc => h.1 hc.symm)]
    rw [ih (by simp at h; exact h.2)]

theorem pyReplaceNl_of_no_nl (s : String) (h : '\n' ∉ s.data) :
    pyReplaceNl s = s := by
  apply String.ext
  show replaceNlData s.data = s.data
  exact replaceNlData_of_no_nl s.data h

example : rijnH0.data.dropWhile pyWs ≠ [] := by decide

example : rijnH2.data.reverse.dropWhile pyWs ≠ [] := by decide

example : rijnP0.data.dropWhile pyWs ≠ [] := by decide

example : rijnP4.data.reverse.dropWhile pyWs ≠ [] := by decide

example : rottP0.data.dropWhile pyWs ≠ [] := by decide

example : rottP5.data.reverse.dropWhile pyWs ≠ [] := by decide

/-- C9: `parse_zwemwater_html_to_dict` is total — it is a plain Lean function
returning a dict for every input string — and either parsing raises
internally (the BeautifulSoup oracle errors) and the result is exactly
`{"error": str(exc), "raw": html}` with the input unmodified, or the result
dict has exactly the keys `place`, `general_info`, `description`,
`facilities`, `chart_titles`. -/
theorem spec_C9 (bs : String → Except String Rotterdam.Soup) (html : String) :
    (∃ e, bs html = .error e ∧
      Rotterdam.parse_zwemwater_html_to_dict bs html =
        .dict [("error", .str e), ("raw", .str html)]) ∨
    (∃ soup, bs html = .ok soup ∧
      pyKeys (Rotterdam.parse_zwemwater_html_to_dict bs html) =
        some ["place", "general_info", "description", "facilities",
          "chart_titles"]) := by
  cases h : bs html with
  | error e =>
    exact Or.inl ⟨e, rfl, by simp [Rotterdam.parse_zwemwater_html_to_dict, h]⟩
  | ok soup =>
    refine Or.inr ⟨soup, rfl, ?_⟩
    simp [Rotterdam.parse_zwemwater_html_to_dict, h, pyKeys, PyVal.dict]

/-- C10: for a 2xx response, `call_endpoint_and_get_content` does not raise on
a non-JSON body: a body that decodes as JSON is returned decoded, and a body
whose JSON decoding fails is returned as the raw response text. -/
theorem spec_C10 (jsonParse : String → Except String PyVal)
    (http : String → Except String HttpResponse) (url : String)
    (header : List (String × String)) (resp : HttpResponse)
    (hresp : http url = .ok resp) (h2xx : is2xx resp = true) :
    (∀ v, jsonParse resp.text = .ok v →
      Rotterdam.call_endpoint_and_get_content jsonParse http url header = .ok v) ∧
    (∀ e, jsonParse resp.text = .error e →
      Rotterdam.call_endpoint_and_get_content jsonParse http url header =
        .ok (.str resp.text)) := by
  constructor
  · intro v hv
    simp [Rotterdam.call_endpoint_and_get_content, hresp, h2xx, hv,
      Bind.bind, Except.bind]
  · intro e he
    simp [Rotterdam.call_endpoint_and_get_content, hresp, h2xx, he,
      Bind.bind, Except.bind]

/-- C10 witness: a JSON body is returned decoded; a non-JSON body is returned
as raw text. -/
theorem spec_C10_witness :
    Rotterdam.call_endpoint_and_get_content (fun _ => .ok (.int 7))
        (fun _ => .ok ⟨200, "body"⟩) "u" [] = .ok (.int 7) ∧
    Rotterdam.call_endpoint_and_get_content (fun _ => .error "Expecting value")
        (fun _ => .ok ⟨200, "body"⟩) "u" [] = .ok (.str "body") := by
  constructor
  · exact (spec_C10 (fun _ => .ok (.int 7)) (fun _ => .ok ⟨200, "body"⟩)
      "u" [] ⟨200, "body"⟩ rfl rfl).1 (.int 7) rfl
  · exact (spec_C10 (fun _ => .error "Expecting value")
      (fun _ => .ok ⟨200, "body"⟩) "u" [] ⟨200, "body"⟩ rfl rfl).2
      "Expecting value" rfl

/-- C8: whenever the chat-completion endpoint returns a response,
`get_llm_response` returns exactly the text content of its first choice. -/
theorem spec_C8 (api : String → Except String ChatResponse) (prompt : String)
    (response : ChatResponse) (hapi : api prompt = .ok response)
    (choice : ChatChoice) (rest : List ChatChoice)
    (hch : response.choices = choice :: rest) :
    get_llm_response api prompt = .ok choice.message.content := by
  simp [get_llm_response, hapi, hch, Bind.bind, Except.bind]

/-- C8 witness: a two-choice response yields the first choice's content. -/
theorem spec_C8_witness :
    get_llm_response
      (fun _ => .ok ⟨[⟨⟨"assistant", "first"⟩⟩, ⟨⟨"assistant", "second"⟩⟩]⟩)
      "p" = .ok "first" :=
  spec_C8 (fun _ => .ok ⟨[⟨⟨"assistant", "first"⟩⟩, ⟨⟨"assistant", "second"⟩⟩]⟩)
    "p" ⟨[⟨⟨"assistant", "first"⟩⟩, ⟨⟨"assistant", "second"⟩⟩]⟩ rfl
    ⟨⟨"assistant", "first"⟩⟩ [⟨⟨"assistant", "second"⟩⟩] rfl

/-- C7: `ZWEMWATER_IDS` has four entries and `get_zwemwater_safety_data`
issues one fetch per entry (the spot url `BASE_SAFETY_URL ++ spotid`),
returning `{"safetyMessages": [...]}` with the four parsed records in
spot-id order; the Rijnhaven pipeline consults the HTTP oracle only at the
two `waterinfo.rws.nl` urls, neither of which is a zwemwater spot url, so it
performs no such fetch. -/
theorem spec_C7 :
    ZWEMWATER_IDS.length = 4 ∧
    Rotterdam.zwemwaterUrls =
      ZWEMWATER_IDS.map (fun spotid => BASE_SAFETY_URL ++ spotid) ∧
    (∀ (jsonParse : String → Except String PyVal)
        (bs : String → Except String Rotterdam.Soup)
        (http : String → Except String HttpResponse)
        (fetched : String → PyVal),
      (∀ url ∈ Rotterdam.zwemwaterUrls,
        Rotterdam.call_endpoint_and_get_content jsonParse http url
          ZWM_WTR_HEADERS = .ok (fetched url)) →
      Rotterdam.get_zwemwater_safety_data jsonParse bs http =
        .ok (.dict [("safetyMessages",
          .list (ZWEMWATER_IDS.map (fun spotid =>
            Rotterdam.parseFetched bs (fetched (BASE_SAFETY_URL ++ spotid)))))])) ∧
    (∀ (jsonParse : String → Except String PyVal)
        (http http' : String → Except String HttpResponse)
        (api : String → Except String ChatResponse) (now : String),
      http WATER_DATA_URL = http' WATER_DATA_URL →
      http WATER_MESSAGES_URL = http' WATER_MESSAGES_URL →
      Rijnhaven.main jsonParse http api now =
        Rijnhaven.main jsonParse http' api now) ∧
    (∀ spotid ∈ ZWEMWATER_IDS,
      WATER_DATA_URL ≠ BASE_SAFETY_URL ++ spotid ∧
      WATER_MESSAGES_URL ≠ BASE_SAFETY_URL ++ spotid) := by
  refine ⟨rfl, rfl, ?_, ?_, by decide⟩
  · intro jsonParse bs http fetched hf
    have h1 := hf (BASE_SAFETY_URL ++ "22003") (by simp [Rotterdam.zwemwaterUrls, ZWEMWATER_IDS])
    have h2 := hf (BASE_SAFETY_URL ++ "23762") (by simp [Rotterdam.zwemwaterUrls, ZWEMWATER_IDS])
    have h3 := hf (BASE_SAFETY_URL ++ "22005") (by simp [Rotterdam.zwemwaterUrls, ZWEMWATER_IDS])
    have h4 := hf (BASE_SAFETY_URL ++ "22001") (by simp [Rotterdam.zwemwaterUrls, ZWEMWATER_IDS])
    simp [Rotterdam.get_zwemwater_safety_data, Rotterdam.zwemwaterUrls,
      ZWEMWATER_IDS, exceptMapList, h1, h2, h3, h4, Bind.bind, Except.bind]
  · intro jsonParse http http' api now h1 h2
    have hfd : Rijnhaven.fetch_data jsonParse http =
        Rijnhaven.fetch_data jsonParse http' := by
      simp [Rijnhaven.fetch_data, Rijnhaven.get_json, h1, h2]
    unfold Rijnhaven.main
    rw [hfd]

/-- C7 witness: with an HTTP oracle echoing each url as a 200-response body
and a JSON decoder that always fails (the spot pages are HTML), the four
spot pages come back as raw text and are parsed in spot-id order. -/
theorem spec_C7_witness :
    Rotterdam.get_zwemwater_safety_data (fun _ => .error "Expecting value")
        (fun _ => .error "boom") (fun url => .ok ⟨200, url⟩) =
      .ok (.dict [("safetyMessages",
        .list (ZWEMWATER_IDS.map (fun spotid =>
          Rotterdam.parseFetched (fun _ => .error "boom")
            (.str (BASE_SAFETY_URL ++ spotid)))))]) :=
  spec_C7.2.2.1 (fun _ => .error "Expecting value") (fun _ => .error "boom")
    (fun url => .ok ⟨200, url⟩) (fun url => .str url) (fun _ _ => rfl)

/-- C1: in either script, if the data fetch (including, for Rotterdam, the
zwemwater fetch), the prompt construction over the fetched data, or the LLM
call fails, `main` catches the failure at the top level, logs it, and the
run ends with no file written. -/
theorem spec_C1 :
    (∀ (jsonParse : String → Except String PyVal)
        (http : String → Except String HttpResponse)
        (api : String → Except String ChatResponse) (now : String) (e : String),
      Rijnhaven.fetch_data jsonParse http = .error e →
      Rijnhaven.main jsonParse http api now =
        ⟨Option.none, some ("Something went wrong: " ++ e)⟩) ∧
    (∀ jsonParse http api now (wd wm : PyVal) (e : String),
      Rijnhaven.fetch_data jsonParse http = .ok (wd, wm) →
      Rijnhaven.create_prompt wd wm = .error e →
      Rijnhaven.main jsonParse http api now =
        ⟨Option.none, some ("Something went wrong: " ++ e)⟩) ∧
    (∀ jsonParse http api now (wd wm : PyVal) (prompt e : String),
      Rijnhaven.fetch_data jsonParse http = .ok (wd, wm) →
      Rijnhaven.create_prompt wd wm = .ok prompt →
      get_llm_response api prompt = .error e →
      Rijnhaven.main jsonParse http api now =
        ⟨Option.none, some ("Something went wrong: " ++ e)⟩) ∧
    (∀ (jsonParse : String → Except String PyVal)
        (bs : String → Except String Rotterdam.Soup)
        (http : String → Except String HttpResponse)
        (api : String → Except String ChatResponse) (now : String) (e : String),
      Rotterdam.fetch_rws_data jsonParse http = .error e →
      Rotterdam.main jsonParse bs http api now =
        ⟨Option.none, some ("Something went wrong: " ++ e)⟩) ∧
    (∀ jsonParse bs http api now (wd wm : PyVal) (e : String),
      Rotterdam.fetch_rws_data jsonParse http = .ok (wd, wm) →
      Rotterdam.get_zwemwater_safety_data jsonParse bs http = .error e →
      Rotterdam.main jsonParse bs http api now =
        ⟨Option.none, some ("Something went wrong: " ++ e)⟩) ∧
    (∀ jsonParse bs http api now (wd wm zw : PyVal) (e : String),
      Rotterdam.fetch_rws_data jsonParse http = .ok (wd, wm) →
      Rotterdam.get_zwemwater_safety_data jsonParse bs http = .ok zw →
      Rotterdam.create_prompt wd wm zw = .error e →
      Rotterdam.main jsonParse bs http api now =
        ⟨Option.none, some ("Something went wrong: " ++ e)⟩) ∧
    (∀ jsonParse bs http api now (wd wm zw : PyVal) (prompt e : String),
      Rotterdam.fetch_rws_data jsonParse http = .ok (wd, wm) →
      Rotterdam.get_zwemwater_safety_data jsonParse bs http = .ok zw →
      Rotterdam.create_prompt wd wm zw = .ok prompt →
      get_llm_response api prompt = .error e →
      Rotterdam.main jsonParse bs http api now =
        ⟨Option.none, some ("Something went wrong: " ++ e)⟩) := by
  refine ⟨?_, ?_, ?_, ?_, ?_, ?_, ?_⟩
  · intro jsonParse http api now e hf
    simp [Rijnhaven.main, hf, Bind.bind, Except.bind]
  · intro jsonParse http api now wd wm e hf hp
    simp [Rijnhaven.main, hf, hp, Bind.bind, Except.bind]
  · intro jsonParse http api now wd wm prompt e hf hp hl
    simp [Rijnhaven.main, hf, hp, hl, Bind.bind, Except.bind]
  · intro jsonParse bs http api now e hf
    simp [Rotterdam.main, hf, Bind.bind, Except.bind]
  · intro jsonParse bs http api now wd wm e hf hz
    simp [Rotterdam.main, hf, hz, Bind.bind, Except.bind]
  · intro jsonParse bs http api now wd wm zw e hf hz hp
    simp [Rotterdam.main, hf, hz, hp, Bind.bind, Except.bind]
  · intro jsonParse bs http api now wd wm zw prompt e hf hz hp hl
    simp [Rotterdam.main, hf, hz, hp, hl, Bind.bind, Except.bind]

/-- C1 witness: a failing HTTP oracle makes the Rijnhaven run log the error
and write nothing. -/
theorem spec_C1_witness :
    Rijnhaven.main (fun _ => .error "nojson") (fun _ => .error "boom")
        (fun _ => .error "noapi") "2025-01-02 03:04" =
      ⟨Option.none, some ("Something went wrong: " ++ "boom")⟩ :=
  spec_C1.1 (fun _ => .error "nojson") (fun _ => .error "boom")
    (fun _ => .error "noapi") "2025-01-02 03:04" "boom" rfl

/-- C6: whenever a run of `main` (either script) writes a file, it is the
rendered HTML report for the LLM's output, written under the name
`index.html` (the default `file_path` of `export_to_html`). -/
theorem spec_C6 :
    (∀ (jsonParse : String → Except String PyVal)
        (http : String → Except String HttpResponse)
        (api : String → Except String ChatResponse) (now : String)
        (r : String × String),
      (Rijnhaven.main jsonParse http api now).written = some r →
      ∃ wd wm prompt report,
        Rijnhaven.fetch_data jsonParse http = .ok (wd, wm) ∧
        Rijnhaven.create_prompt wd wm = .ok prompt ∧
        get_llm_response api prompt = .ok report ∧
        r = ("index.html", Rijnhaven.htmlContent report now)) ∧
    (∀ (jsonParse : String → Except String PyVal)
        (bs : String → Except String Rotterdam.Soup)
        (http : String → Except String HttpResponse)
        (api : String → Except String ChatResponse) (now : String)
        (r : String × String),
      (Rotterdam.main jsonParse bs http api now).written = some r →
      ∃ wd wm zw prompt report,
        Rotterdam.fetch_rws_data jsonParse http = .ok (wd, wm) ∧
        Rotterdam.get_zwemwater_safety_data jsonParse bs http = .ok zw ∧
        Rotterdam.create_prompt wd wm zw = .ok prompt ∧
        get_llm_response api prompt = .ok report ∧
        r = ("index.html", Rotterdam.htmlContent report now)) := by
  constructor
  · intro jsonParse http api now r h
    cases hf : Rijnhaven.fetch_data jsonParse http with
    | error e => simp [Rijnhaven.main, hf, Bind.bind, Except.bind] at h
    | ok wdm =>
      obtain ⟨wd, wm⟩ := wdm
      cases hp : Rijnhaven.create_prompt wd wm with
      | error e => simp [Rijnhaven.main, hf, hp, Bind.bind, Except.bind] at h
      | ok prompt =>
        cases hl : get_llm_response api prompt with
        | error e =>
          simp [Rijnhaven.main, hf, hp, hl, Bind.bind, Except.bind] at h
        | ok report =>
          refine ⟨wd, wm, prompt, report, rfl, hp, hl, ?_⟩
          simp [Rijnhaven.main, hf, hp, hl, Bind.bind, Except.bind,
            Rijnhaven.export_to_html] at h
          exact h.symm
  · intro jsonParse bs http api now r h
    cases hf : Rotterdam.fetch_rws_data jsonParse http with
    | error e => simp [Rotterdam.main, hf, Bind.bind, Except.bind] at h
    | ok wdm =>
      obtain ⟨wd, wm⟩ := wdm
      cases hz : Rotterdam.get_zwemwater_safety_data jsonParse bs http with
      | error e => simp [Rotterdam.main, hf, hz, Bind.bind, Except.bind] at h
      | ok zw =>
        cases hp : Rotterdam.create_prompt wd wm zw with
        | error e =>
          simp [Rotterdam.main, hf, hz, hp, Bind.bind, Except.bind] at h
        | ok prompt =>
          cases hl : get_llm_response api prompt with
          | error e =>
            simp [Rotterdam.main, hf, hz, hp, hl, Bind.bind, Except.bind] at h
          | ok report =>
            refine ⟨wd, wm, zw, prompt, report, rfl, rfl, hp, hl, ?_⟩
            simp [Rotterdam.main, hf, hz, hp, hl, Bind.bind, Except.bind,
              Rotterdam.export_to_html] at h
            exact h.symm

/-- C6 witness: concrete successful runs of both scripts write
`index.html`. -/
theorem spec_C6_witness :
    (∃ wd wm prompt report,
      Rijnhaven.fetch_data jpW httpW = .ok (wd, wm) ∧
      Rijnhaven.create_prompt wd wm = .ok prompt ∧
      get_llm_response apiW prompt = .ok report ∧
      ("index.html", Rijnhaven.htmlContent "REPORT" "2025-01-02 03:04") =
        ("index.html", Rijnhaven.htmlContent report "2025-01-02 03:04")) ∧
    (∃ wd wm zw prompt report,
      Rotterdam.fetch_rws_data jpW httpW = .ok (wd, wm) ∧
      Rotterdam.get_zwemwater_safety_data jpW bsW httpW = .ok zw ∧
      Rotterdam.create_prompt wd wm zw = .ok prompt ∧
      get_llm_response apiW prompt = .ok report ∧
      ("index.html", Rotterdam.htmlContent "REPORT" "2025-01-02 03:04") =
        ("index.html", Rotterdam.htmlContent report "2025-01-02 03:04")) :=
  ⟨spec_C6.1 jpW httpW apiW "2025-01-02 03:04"
      ("index.html", Rijnhaven.htmlContent "REPORT" "2025-01-02 03:04") rfl,
    spec_C6.2 jpW bsW httpW apiW "2025-01-02 03:04"
      ("index.html", Rotterdam.htmlContent "REPORT" "2025-01-02 03:04") rfl⟩

theorem hasSubData_nil (hay : List Char) : hasSubData [] hay = true := by
  cases hay with
  | nil => rfl
  | cons c t => simp [hasSubData, List.isPrefixOf]

theorem hasSubData_of_sub (needle hay : List Char) (h : needle <:+: hay) :
    hasSubData needle hay = true := by
  obtain ⟨s, t, rfl⟩ := h
  induction s with
  | nil =>
    cases needle with
    | nil => exact hasSubData_nil _
    | cons n ns =>
      have hp : (n :: ns).isPrefixOf (n :: ns ++ t) = true := by
        rw [List.isPrefixOf_iff_prefix]
        exact ⟨t, by simp⟩
      simp only [List.nil_append, List.cons_append, hasSubData]
      rw [List.cons_append] at hp
      simp [hp]
  | cons c s ih =>
    simp only [List.cons_append, hasSubData]
    rw [show (s.append needle).append t = s ++ needle ++ t from rfl, ih,
      Bool.or_true]

/-- C3 counterexample: `export_to_html` replaces each newline of the report
with `<br>`, so a report containing a newline does not appear verbatim as a
substring of the written page. -/
theorem spec_C3_cex :
    ¬ ("a\nb".data <:+: (Rotterdam.htmlContent "a\nb" "2025-06-01 10:00").data) := by
  intro h
  have hs := hasSubData_of_sub _ _ h
  rw [show hasSubData "a\nb".data
      (Rotterdam.htmlContent "a\nb" "2025-06-01 10:00").data = false from rfl] at hs
  exact Bool.false_ne_true hs

/-- C3 as amended: in either script the written page is the fixed template
around the model's returned text with each newline replaced by `<br>`; the
text appears as a substring in that newline-rewritten form, and verbatim
exactly when it contains no newline. -/
theorem spec_C3_amended (report now : String) :
    ((pyReplaceNl report).data <:+: (Rijnhaven.htmlContent report now).data) ∧
    ((pyReplaceNl report).data <:+: (Rotterdam.htmlContent report now).data) ∧
    ('\n' ∉ report.data →
      report.data <:+: (Rijnhaven.htmlContent report now).data ∧
      report.data <:+: (Rotterdam.htmlContent report now).data) := by
  have hrott : (pyReplaceNl report).data <:+:
      (Rotterdam.htmlContent report now).data := by
    refine ⟨rottH0.data, rottH1.data ++ now.data ++ rottH2.data, ?_⟩
    simp [Rotterdam.htmlContent, String.data_append, List.append_assoc]
  have hrijn : (pyReplaceNl report).data <:+:
      (Rijnhaven.htmlContent report now).data := by
    have hassoc : rijnH0 ++ pyReplaceNl report ++ rijnH1 ++ now ++ rijnH2 =
        rijnH0 ++ (pyReplaceNl report ++ rijnH1 ++ now) ++ rijnH2 := by
      simp [String.append_assoc]
    have hd := pyStrip_data_decomp rijnH0 (pyReplaceNl report ++ rijnH1 ++ now)
      rijnH2 (by decide) (by decide)
    show (pyReplaceNl report).data <:+:
      (pyStrip (rijnH0 ++ pyReplaceNl report ++ rijnH1 ++ now ++ rijnH2)).data
    rw [hassoc, hd]
    refine ⟨rijnH0.data.dropWhile pyWs,
      rijnH1.data ++ now.data ++ (rijnH2.data.reverse.dropWhile pyWs).reverse, ?_⟩
    simp [String.data_append, List.append_assoc]
  refine ⟨hrijn, hrott, fun hnl => ?_⟩
  rw [pyReplaceNl_of_no_nl report hnl] at hrijn hrott
  exact ⟨hrijn, hrott⟩

/-- C3 witness: a newline-free report appears verbatim in both pages. -/
theorem spec_C3_witness :
    "fine to swim".data <:+:
      (Rijnhaven.htmlContent "fine to swim" "2025-06-01 10:00").data ∧
    "fine to swim".data <:+:
      (Rotterdam.htmlContent "fine to swim" "2025-06-01 10:00").data :=
  (spec_C3_amended "fine to swim" "2025-06-01 10:00").2.2 (by decide)

theorem rijn_export_eq_iff (report file_path now now' : String) :
    Rijnhaven.export_to_html report file_path now =
      Rijnhaven.export_to_html report file_path now' ↔ now = now' := by
  constructor
  · intro h
    have hc := congrArg (fun p : String × String => p.2.data) h
    simp only [Rijnhaven.export_to_html] at hc
    have hassoc : ∀ t : String,
        rijnH0 ++ pyReplaceNl report ++ rijnH1 ++ t ++ rijnH2 =
          rijnH0 ++ (pyReplaceNl report ++ rijnH1 ++ t) ++ rijnH2 := by
      intro t
      simp [String.append_assoc]
    simp only [Rijnhaven.htmlContent] at hc
    rw [hassoc now, hassoc now',
      pyStrip_data_decomp rijnH0 (pyReplaceNl report ++ rijnH1 ++ now) rijnH2
        (by decide) (by decide),
      pyStrip_data_decomp rijnH0 (pyReplaceNl report ++ rijnH1 ++ now') rijnH2
        (by decide) (by decide)] at hc
    simp only [String.data_append] at hc
    exact String.ext
      (List.append_cancel_left (List.append_cancel_left
        (List.append_cancel_right hc)))
  · intro h
    rw [h]

theorem rott_export_eq_iff (report file_path now now' : String) :
    Rotterdam.export_to_html report file_path now =
      Rotterdam.export_to_html report file_path now' ↔ now = now' := by
  constructor
  · intro h
    have hc := congrArg (fun p : String × String => p.2.data) h
    simp only [Rotterdam.export_to_html, Rotterdam.htmlContent,
      String.data_append] at hc
    exact String.ext
      (List.append_cancel_left (List.append_cancel_right hc))
  · intro h
    rw [h]

/-- C5 counterexample: `export_to_html` reads the wall clock, so two runs
with equal arguments but different clock readings write different bytes. -/
theorem spec_C5_cex :
    Rotterdam.export_to_html "advice" "index.html" "2025-06-01 10:00" ≠
      Rotterdam.export_to_html "advice" "index.html" "2025-06-01 10:01" :=
  fun h => absurd
    ((rott_export_eq_iff "advice" "index.html" "2025-06-01 10:00"
      "2025-06-01 10:01").mp h) (by decide)

/-- C5 as amended: `create_prompt` is a pure function of its arguments (it is
embedded as one), while `export_to_html` depends on its arguments and the
current timestamp: in either script two runs with equal report and path
write byte-for-byte equal contents exactly when the clock readings are
equal. -/
theorem spec_C5_amended (report file_path now now' : String) :
    (Rijnhaven.export_to_html report file_path now =
      Rijnhaven.export_to_html report file_path now' ↔ now = now') ∧
    (Rotterdam.export_to_html report file_path now =
      Rotterdam.export_to_html report file_path now' ↔ now = now') :=
  ⟨rijn_export_eq_iff report file_path now now',
    rott_export_eq_iff report file_path now now'⟩

/-- C5 witness: equal clock readings reproduce the bytes; different ones do
not. -/
theorem spec_C5_witness :
    Rijnhaven.export_to_html "r" "index.html" "2025-06-01 10:00" =
      Rijnhaven.export_to_html "r" "index.html" "2025-06-01 10:00" ∧
    Rotterdam.export_to_html "r" "index.html" "2025-06-01 10:00" ≠
      Rotterdam.export_to_html "r" "index.html" "2025-06-01 10:01" :=
  ⟨(spec_C5_amended "r" "index.html" "2025-06-01 10:00" "2025-06-01 10:00").1.mpr
      rfl,
    fun h =>
      absurd ((spec_C5_amended "r" "index.html" "2025-06-01 10:00"
        "2025-06-01 10:01").2.mp h) (by decide)⟩

/-- C2 counterexample: in the Rijnhaven script an absent water level is not
given a placeholder — `create_prompt` subscripts `water_data["latest"]` and
raises `KeyError` when the field is absent, even with everything else
present. -/
theorem spec_C2_cex :
    Rijnhaven.create_prompt (.dict [("related", .list [])])
      (.dict [("messages", .list [])]) = .error "KeyError: \x27latest\x27" := rfl

/-- C2 as amended: only the Rotterdam script substitutes a placeholder for an
absent field and returns a prompt in every such case — shown per absent
field (water level, wind reading, temperature reading, message list), and
with all fields absent at once; the Rijnhaven script tolerates only absent
wind and temperature readings (rendered as `None`), and raises when
`latest` (the water level) or `messages` (the safety-message list) is
absent. -/
theorem spec_C2_amended :
    (∀ (zw : PyVal) (wnd tmp : String),
      (Rotterdam.create_prompt
        (.dict [("related", .list [
          .dict [("label", .str "Windsnelheid"), ("data", .str wnd)],
          .dict [("label", .str "Watertemperatuur"), ("data", .str tmp)]])])
        (.dict [("messages", .list [.dict [("title", .str "T"),
          ("bannerText", .str "B")]])]) zw).isOk = true) ∧
    (∀ (zw : PyVal) (lvl tmp : String),
      (Rotterdam.create_prompt
        (.dict [("latest", .dict [("data", .str lvl)]),
          ("related", .list [
            .dict [("label", .str "Watertemperatuur"), ("data", .str tmp)]])])
        (.dict [("messages", .list [.dict [("title", .str "T"),
          ("bannerText", .str "B")]])]) zw).isOk = true) ∧
    (∀ (zw : PyVal) (lvl wnd : String),
      (Rotterdam.create_prompt
        (.dict [("latest", .dict [("data", .str lvl)]),
          ("related", .list [
            .dict [("label", .str "Windsnelheid"), ("data", .str wnd)]])])
        (.dict [("messages", .list [.dict [("title", .str "T"),
          ("bannerText", .str "B")]])]) zw).isOk = true) ∧
    (∀ (zw : PyVal) (lvl : String),
      (Rotterdam.create_prompt
        (.dict [("latest", .dict [("data", .str lvl)]), ("related", .list [])])
        (.dict []) zw).isOk = true) ∧
    (∀ zw : PyVal,
      (Rotterdam.create_prompt (.dict []) (.dict []) zw).isOk = true) ∧
    (∀ lvl : PyVal,
      (Rijnhaven.create_prompt
        (.dict [("latest", .dict [("data", lvl)]), ("related", .list [])])
        (.dict [("messages", .list [])])).isOk = true) ∧
    Rijnhaven.create_prompt
        (.dict [("latest", .dict [("data", .str "1")]), ("related", .list [])])
        (.dict []) = .error "KeyError: \x27messages\x27" :=
  ⟨fun _ _ _ => rfl, fun _ _ _ => rfl, fun _ _ _ => rfl, fun _ _ => rfl,
    fun _ => rfl, fun _ => rfl, rfl⟩

theorem findRelated_fix_wind (lblW lblT wnd tmp : String)
    (hW : pyInStr "Windsnelheid" lblW = true) :
    findRelated "Windsnelheid" [relWFix lblW wnd, relTFix lblT tmp] =
      .ok (relWFix lblW wnd) := by
  have s1 : pySubscript (relWFix lblW wnd) "label" = .ok (.str lblW) := rfl
  simp [findRelated, s1, pyInOp, hW, Bind.bind, Except.bind]

theorem findRelated_fix_temp (lblW lblT wnd tmp : String)
    (hWT : pyInStr "Watertemperatuur" lblW = false)
    (hT : pyInStr "Watertemperatuur" lblT = true) :
    findRelated "Watertemperatuur" [relWFix lblW wnd, relTFix lblT tmp] =
      .ok (relTFix lblT tmp) := by
  have s1 : pySubscript (relWFix lblW wnd) "label" = .ok (.str lblW) := rfl
  have s2 : pySubscript (relTFix lblT tmp) "label" = .ok (.str lblT) := rfl
  simp [findRelated, s1, s2, pyInOp, hWT, hT, Bind.bind, Except.bind]

theorem findRelatedGet_fix_wind (lblW lblT wnd tmp : String)
    (hW : pyInStr "Windsnelheid" lblW = true) :
    findRelatedGet "Windsnelheid" [relWFix lblW wnd, relTFix lblT tmp] =
      .ok (relWFix lblW wnd) := by
  have s1 : pyGet (relWFix lblW wnd) "label" (.str "") = .ok (.str lblW) := rfl
  simp [findRelatedGet, s1, pyInOp, hW, Bind.bind, Except.bind]

theorem findRelatedGet_fix_temp (lblW lblT wnd tmp : String)
    (hWT : pyInStr "Watertemperatuur" lblW = false)
    (hT : pyInStr "Watertemperatuur" lblT = true) :
    findRelatedGet "Watertemperatuur" [relWFix lblW wnd, relTFix lblT tmp] =
      .ok (relTFix lblT tmp) := by
  have s1 : pyGet (relWFix lblW wnd) "label" (.str "") = .ok (.str lblW) := rfl
  have s2 : pyGet (relTFix lblT tmp) "label" (.str "") = .ok (.str lblT) := rfl
  simp [findRelatedGet, s1, s2, pyInOp, hWT, hT, Bind.bind, Except.bind]

theorem rijn_create_prompt_fix (lvl wnd tmp lblW lblT : String)
    (msgs : List (String × String))
    (hW : pyInStr "Windsnelheid" lblW = true)
    (hWT : pyInStr "Watertemperatuur" lblW = false)
    (hT : pyInStr "Watertemperatuur" lblT = true) :
    Rijnhaven.create_prompt (waterDataFix lvl wnd tmp lblW lblT)
        (waterMessagesFix msgs) =
      .ok (pyStrip (rijnP0 ++ tmp ++ rijnP1 ++ lvl ++ rijnP2 ++ wnd ++ rijnP3 ++
        pyJoin "\n" (msgs.map msgLineFix) ++ rijnP4)) := by
  have lLat : pySubscript (waterDataFix lvl wnd tmp lblW lblT) "latest" =
      .ok (.dict [("data", .str lvl)]) := rfl
  have lLev : pySubscript (PyVal.dict [("data", PyVal.str lvl)]) "data" =
      .ok (.str lvl) := rfl
  have lRel : pySubscript (waterDataFix lvl wnd tmp lblW lblT) "related" =
      .ok (.list [relWFix lblW wnd, relTFix lblT tmp]) := rfl
  have lMsg : pySubscript (waterMessagesFix msgs) "messages" =
      .ok (.list (msgs.map (fun pr =>
        .dict [("title", .str pr.1), ("bannerText", .str pr.2)]))) := rfl
  have gT : pyGet (relTFix lblT tmp) "data" PyVal.none = .ok (.str tmp) := rfl
  have gW : pyGet (relWFix lblW wnd) "data" PyVal.none = .ok (.str wnd) := rfl
  simp only [Rijnhaven.create_prompt, lLat, lLev, lRel, lMsg, gT, gW,
    pyAsList_list, findRelated_fix_wind lblW lblT wnd tmp hW,
    findRelated_fix_temp lblW lblT wnd tmp hWT hT, messageLines_shape,
    Bind.bind, Except.bind, pyStr_str]
  rfl

theorem rott_create_prompt_fix (lvl wnd tmp lblW lblT : String)
    (msgs : List (String × String)) (zw : PyVal)
    (hW : pyInStr "Windsnelheid" lblW = true)
    (hWT : pyInStr "Watertemperatuur" lblW = false)
    (hT : pyInStr "Watertemperatuur" lblT = true) :
    Rotterdam.create_prompt (waterDataFix lvl wnd tmp lblW lblT)
        (waterMessagesFix msgs) zw =
      .ok (pyStrip (rottP0 ++ tmp ++ rottP1 ++ lvl ++ rottP2 ++ wnd ++ rottP3 ++
        (if (msgs.map msgLineFix).isEmpty then "- No official messages"
          else pyJoin "\n" (msgs.map msgLineFix)) ++
        rottP4 ++ pyStr zw ++ rottP5)) := by
  have lLat : pyGet (waterDataFix lvl wnd tmp lblW lblT) "latest" (.dict []) =
      .ok (.dict [("data", .str lvl)]) := rfl
  have lLev : pyGet (PyVal.dict [("data", PyVal.str lvl)]) "data" (.str "N/A") =
      .ok (.str lvl) := rfl
  have lRel : pyGet (waterDataFix lvl wnd tmp lblW lblT) "related" (.list []) =
      .ok (.list [relWFix lblW wnd, relTFix lblT tmp]) := rfl
  have lMsg : pyGet (waterMessagesFix msgs) "messages" (.list []) =
      .ok (.list (msgs.map (fun pr =>
        .dict [("title", .str pr.1), ("bannerText", .str pr.2)]))) := rfl
  have gT : pyGet (relTFix lblT tmp) "data" (.str "N/A") = .ok (.str tmp) := rfl
  have gW : pyGet (relWFix lblW wnd) "data" (.str "N/A") = .ok (.str wnd) := rfl
  simp only [Rotterdam.create_prompt, lLat, lLev, lRel, lMsg, gT, gW,
    pyAsList_list, findRelatedGet_fix_wind lblW lblT wnd tmp hW,
    findRelatedGet_fix_temp lblW lblT wnd tmp hWT hT, messageLines_shape,
    Bind.bind, Except.bind, pyStr_str]
  rfl

theorem sub_of_pyStrip (pre mid post x : String)
    (hpre : pre.data.dropWhile pyWs ≠ [])
    (hpost : post.data.reverse.dropWhile pyWs ≠ [])
    (hx : x.data <:+: mid.data) :
    x.data <:+: (pyStrip (pre ++ mid ++ post)).data := by
  rw [pyStrip_data_decomp pre mid post hpre hpost]
  exact subTrans hx
    ⟨pre.data.dropWhile pyWs, (post.data.reverse.dropWhile pyWs).reverse, rfl⟩

theorem anchor_rijnP0 : rijnP0.data.dropWhile pyWs ≠ [] := by decide

theorem anchor_rijnP4 : rijnP4.data.reverse.dropWhile pyWs ≠ [] := by decide

theorem anchor_rottP0 : rottP0.data.dropWhile pyWs ≠ [] := by decide

theorem anchor_rottP5 : rottP5.data.reverse.dropWhile pyWs ≠ [] := by decide

/-- C4: for water data carrying a latest level, related wind and temperature
readings (recognised by their labels), and a list of titled safety messages,
the prompt built by `create_prompt` (either script) contains the level,
temperature and wind values and each message's title and bannerText,
interpolated into the fixed template. -/
theorem spec_C4 (lvl wnd tmp lblW lblT : String)
    (msgs : List (String × String)) (zw : PyVal)
    (hW : pyInStr "Windsnelheid" lblW = true)
    (hWT : pyInStr "Watertemperatuur" lblW = false)
    (hT : pyInStr "Watertemperatuur" lblT = true) :
    (∃ p, Rijnhaven.create_prompt (waterDataFix lvl wnd tmp lblW lblT)
        (waterMessagesFix msgs) = .ok p ∧
      lvl.data <:+: p.data ∧ tmp.data <:+: p.data ∧ wnd.data <:+: p.data ∧
      ∀ pr ∈ msgs, pr.1.data <:+: p.data ∧ pr.2.data <:+: p.data) ∧
    (∃ q, Rotterdam.create_prompt (waterDataFix lvl wnd tmp lblW lblT)
        (waterMessagesFix msgs) zw = .ok q ∧
      lvl.data <:+: q.data ∧ tmp.data <:+: q.data ∧ wnd.data <:+: q.data ∧
      ∀ pr ∈ msgs, pr.1.data <:+: q.data ∧ pr.2.data <:+: q.data) := by
  constructor
  · refine ⟨pyStrip (rijnP0 ++ (tmp ++ rijnP1 ++ lvl ++ rijnP2 ++ wnd ++
      rijnP3 ++ pyJoin "\n" (msgs.map msgLineFix)) ++ rijnP4), ?_, ?_, ?_, ?_, ?_⟩
    · rw [rijn_create_prompt_fix lvl wnd tmp lblW lblT msgs hW hWT hT]
      exact congrArg Except.ok (congrArg pyStrip (by simp [String.append_assoc]))
    · exact sub_of_pyStrip _ _ _ _ anchor_rijnP0 anchor_rijnP4
        ⟨(tmp ++ rijnP1).data,
          (rijnP2 ++ wnd ++ rijnP3 ++ pyJoin "\n" (msgs.map msgLineFix)).data,
          by simp [String.data_append, List.append_assoc]⟩
    · exact sub_of_pyStrip _ _ _ _ anchor_rijnP0 anchor_rijnP4
        ⟨[], (rijnP1 ++ lvl ++ rijnP2 ++ wnd ++ rijnP3 ++
          pyJoin "\n" (msgs.map msgLineFix)).data,
          by simp [String.data_append, List.append_assoc]⟩
    · exact sub_of_pyStrip _ _ _ _ anchor_rijnP0 anchor_rijnP4
        ⟨(tmp ++ rijnP1 ++ lvl ++ rijnP2).data,
          (rijnP3 ++ pyJoin "\n" (msgs.map msgLineFix)).data,
          by simp [String.data_append, List.append_assoc]⟩
    · intro pr hpr
      have hM : (msgLineFix pr).data <:+:
          (pyJoin "\n" (msgs.map msgLineFix)).data :=
        pyJoin_sub "\n" (msgs.map msgLineFix) (msgLineFix pr)
          (List.mem_map_of_mem msgLineFix hpr)
      have hmid : ∀ y : String, y.data <:+: (msgLineFix pr).data →
          y.data <:+: (tmp ++ rijnP1 ++ lvl ++ rijnP2 ++ wnd ++ rijnP3 ++
            pyJoin "\n" (msgs.map msgLineFix)).data := by
        intro y hy
        refine subTrans (subTrans hy hM)
          ⟨(tmp ++ rijnP1 ++ lvl ++ rijnP2 ++ wnd ++ rijnP3).data, [],
            by simp [String.data_append, List.append_assoc]⟩
      constructor
      · exact sub_of_pyStrip _ _ _ _ anchor_rijnP0 anchor_rijnP4
          (hmid pr.1 ⟨"- ".data, (": " ++ pr.2).data,
            by simp [msgLineFix, String.data_append, List.append_assoc]⟩)
      · exact sub_of_pyStrip _ _ _ _ anchor_rijnP0 anchor_rijnP4
          (hmid pr.2 ⟨("- " ++ pr.1 ++ ": ").data, [],
            by simp [msgLineFix, String.data_append, List.append_assoc]⟩)
  · have hrott := rott_create_prompt_fix lvl wnd tmp lblW lblT msgs zw hW hWT hT
    generalize hSdef : (if (msgs.map msgLineFix).isEmpty then
      "- No official messages" else pyJoin "\n" (msgs.map msgLineFix)) = S at hrott
    refine ⟨pyStrip (rottP0 ++ (tmp ++ rottP1 ++ lvl ++ rottP2 ++ wnd ++
      rottP3 ++ S ++ rottP4 ++ pyStr zw) ++ rottP5), ?_, ?_, ?_, ?_, ?_⟩
    · rw [hrott]
      exact congrArg Except.ok (congrArg pyStrip (by simp [String.append_assoc]))
    · exact sub_of_pyStrip _ _ _ _ anchor_rottP0 anchor_rottP5
        ⟨(tmp ++ rottP1).data,
          (rottP2 ++ wnd ++ rottP3 ++ S ++ rottP4 ++ pyStr zw).data,
          by simp [String.data_append, List.append_assoc]⟩
    · exact sub_of_pyStrip _ _ _ _ anchor_rottP0 anchor_rottP5
        ⟨[], (rottP1 ++ lvl ++ rottP2 ++ wnd ++ rottP3 ++ S ++ rottP4 ++
          pyStr zw).data, by simp [String.data_append, List.append_assoc]⟩
    · exact sub_of_pyStrip _ _ _ _ anchor_rottP0 anchor_rottP5
        ⟨(tmp ++ rottP1 ++ lvl ++ rottP2).data,
          (rottP3 ++ S ++ rottP4 ++ pyStr zw).data,
          by simp [String.data_append, List.append_assoc]⟩
    · intro pr hpr
      have hcond : ¬ ((msgs.map msgLineFix).isEmpty = true) := by
        intro habs
        rw [List.isEmpty_iff] at habs
        rcases msgs with _ | ⟨a, t⟩
        · exact List.not_mem_nil pr hpr
        · simp at habs
      rw [if_neg hcond] at hSdef
      have hM : (msgLineFix pr).data <:+: S.data := by
        rw [← hSdef]
        exact pyJoin_sub "\n" (msgs.map msgLineFix) (msgLineFix pr)
          (List.mem_map_of_mem msgLineFix hpr)
      have hmid : ∀ y : String, y.data <:+: (msgLineFix pr).data →
          y.data <:+: (tmp ++ rottP1 ++ lvl ++ rottP2 ++ wnd ++ rottP3 ++ S ++
            rottP4 ++ pyStr zw).data := by
        intro y hy
        refine subTrans (subTrans hy hM)
          ⟨(tmp ++ rottP1 ++ lvl ++ rottP2 ++ wnd ++ rottP3).data,
            (rottP4 ++ pyStr zw).data,
            by simp [String.data_append, List.append_assoc]⟩
      constructor
      · exact sub_of_pyStrip _ _ _ _ anchor_rottP0 anchor_rottP5
          (hmid pr.1 ⟨"- ".data, (": " ++ pr.2).data,
            by simp [msgLineFix, String.data_append, List.append_assoc]⟩)
      · exact sub_of_pyStrip _ _ _ _ anchor_rottP0 anchor_rottP5
          (hmid pr.2 ⟨("- " ++ pr.1 ++ ": ").data, [],
            by simp [msgLineFix, String.data_append, List.append_assoc]⟩)

/-- C4 witness: concrete readings and one message, with realistic labels. -/
theorem spec_C4_witness :
    (∃ p, Rijnhaven.create_prompt
        (waterDataFix "12" "3.4" "19.5" "Windsnelheid in m/s"
          "Watertemperatuur in graden")
        (waterMessagesFix [("T1", "B1")]) = .ok p ∧
      "12".data <:+: p.data ∧ "19.5".data <:+: p.data ∧
      "3.4".data <:+: p.data ∧
      ∀ pr ∈ [("T1", "B1")], pr.1.data <:+: p.data ∧ pr.2.data <:+: p.data) ∧
    (∃ q, Rotterdam.create_prompt
        (waterDataFix "12" "3.4" "19.5" "Windsnelheid in m/s"
          "Watertemperatuur in graden")
        (waterMessagesFix [("T1", "B1")]) (.str "zwemwater") = .ok q ∧
      "12".data <:+: q.data ∧ "19.5".data <:+: q.data ∧
      "3.4".data <:+: q.data ∧
      ∀ pr ∈ [("T1", "B1")], pr.1.data <:+: q.data ∧ pr.2.data <:+: q.data) :=
  spec_C4 "12" "3.4" "19.5" "Windsnelheid in m/s" "Watertemperatuur in graden"
    [("T1", "B1")] (.str "zwemwater") (by decide) (by decide) (by decide)
